import Mathlib

/-!
Shallow embedding of the news-automation pipeline (news_workflow.py,
news_extraction_async.py, llm_integrations.py, notifications.py, main.py).

External effects (HTTP fetches, HTML parsing by BeautifulSoup, the LLM HTTP
call, SMTP delivery, configuration) are modelled as an explicit environment
record; everything the repository's own code computes is embedded as
executable Lean functions mirroring the Python statement by statement.
-/

namespace News

/-- Character-list test: pat is an initial segment of s. Kernel-computable
replacement for position-based core string primitives. -/
def hasLead : List Char → List Char → Bool
  | [], _ => true
  | _ :: _, [] => false
  | p :: ps, c :: cs => p == c && hasLead ps cs

/-- Fuel-driven split of a character list on a non-empty separator, leftmost
non-overlapping matches, Python str.split(sep) semantics. The fuel is always
called with more than the list's length, so it never runs out. -/
def splitOnFuel (sep : List Char) : Nat → List Char → List Char → List (List Char)
  | _, [], acc => [acc.reverse]
  | 0, s, acc => [acc.reverse ++ s]
  | fuel + 1, c :: cs, acc =>
    if hasLead sep (c :: cs) then
      acc.reverse :: splitOnFuel sep fuel ((c :: cs).drop sep.length) []
    else splitOnFuel sep fuel cs (c :: acc)

/-- Python `s.split(sep)` for a non-empty separator (the one-piece answer for
an empty separator stands in for Python's ValueError, which no caller hits). -/
def splitOnS (s sep : String) : List String :=
  if sep = "" then [s]
  else (splitOnFuel sep.data (s.data.length + 1) s.data []).map String.mk

/-- Python string length (number of characters). -/
def lenS (s : String) : Nat := s.data.length

/-- Python `sep.join(parts)`. -/
def joinSep (sep : String) : List String → String
  | [] => ""
  | [x] => x
  | x :: xs => x ++ sep ++ joinSep sep xs

/-- Python `s.replace(pat, rep)` for a non-empty pattern: replace every
non-overlapping occurrence, left to right. -/
def replaceS (s pat rep : String) : String :=
  if pat = "" then s else joinSep rep (splitOnS s pat)

/-- Python `s.strip()`. -/
def trimS (s : String) : String :=
  String.mk (((s.data.dropWhile Char.isWhitespace).reverse.dropWhile Char.isWhitespace).reverse)

/-- Split a character list at every character satisfying p, keeping empty
pieces (they are filtered by the caller, giving Python str.split() with no
argument). -/
def splitPred (p : Char → Bool) : List Char → List Char → List (List Char)
  | [], acc => [acc.reverse]
  | c :: cs, acc => if p c then acc.reverse :: splitPred p cs [] else splitPred p cs (c :: acc)

/-- Python `s.startswith(pat)`. -/
def startsWithS (s pat : String) : Bool := hasLead pat.data s.data

/-- Python `s.endswith(pat)`. -/
def endsWithS (s pat : String) : Bool := hasLead pat.data.reverse s.data.reverse

/-- Python `s[:n]`. -/
def takeS (s : String) (n : Nat) : String := String.mk (s.data.take n)

/-- Python `s[n:]`. -/
def dropS (s : String) (n : Nat) : String := String.mk (s.data.drop n)

/-- Membership of a string in a string list, by propositional equality. -/
def memS (x : String) : List String → Bool
  | [] => false
  | y :: ys => if x = y then true else memS x ys

/-- Python truthiness of an optional string value (a dict field that may be
absent): truthy exactly when the key is present with a non-empty string. -/
def strTruthy : Option String → Bool
  | none => false
  | some s => if s = "" then false else true

/-- Python substring containment `pat in s`, with Python's convention that the
empty string is contained in every string. -/
def containsSub (s pat : String) : Bool :=
  if pat = "" then true
  else
    match splitOnS s pat with
    | _ :: _ :: _ => true
    | _ => false

/-- Models `s.split('//')[1].split('/')[0]`: `none` when the index-1 access
raises IndexError (no `//` in the string). -/
def hostOf (s : String) : Option String :=
  match splitOnS s "//" with
  | _ :: part :: _ => some ((splitOnS part "/").headD "")
  | _ => none

/-- Strip one leading `www.` as in fetch_articles_async (startswith check). -/
def stripWwwOnce (d : String) : String :=
  if startsWithS d "www." then dropS d 4 else d

/-- Result of parsing one HTML document with BeautifulSoup, at the granularity
the repository queries it: the href attribute of every anchor that has one (in
document order), the text of the first h1 element if any, the content
attribute of the first `meta property="og:title"` element if any (outer
`none` when no such element, inner `none` when the element lacks a content
attribute), and the text of each p element remaining after the
script/style/nav/header/footer elements are decomposed. Parsing itself is an
external collaborator, so a `Page` is supplied by the environment. -/
structure Page where
  anchors : List String
  firstH1 : Option String
  ogTitle : Option (Option String)
  paragraphs : List String
deriving DecidableEq

/-- One article dict moving through the pipeline. Optional fields model dict
keys that may be absent. -/
structure Article where
  url : String
  title : Option String := none
  html : Option String := none
  source : Option String := none
  content : Option String := none
  error : Option String := none
  summary : Option String := none
deriving DecidableEq

/-- One entry of the configured `sources` list, as classified by
fetch_articles_async: a plain string URL, a dict that has a `url` key (the
code then also reads its `name` key downstream), a dict without a `url` key,
or a value of any other type. For the two invalid shapes we carry the string
Python would interpolate into the error message. -/
inductive SourceEntry where
  | str (s : String)
  | dictWithUrl (name url : String)
  | dictNoUrl (pyText : String)
  | otherVal (pyText : String)
deriving DecidableEq

/-- A normalized source dict with `name` and `url` keys. -/
structure Source where
  name : String
  url : String
deriving DecidableEq

/-- Request body of the chat-completion call built by get_llm_summary. -/
structure LlmRequest where
  model : String
  system : String
  user : String
deriving DecidableEq

/-- Outcome of the chat-completion HTTP call: `fault` for any exception raised
by requests.post / raise_for_status / json decoding (carrying str(e)), or the
decoded response's `choices` value — `none` when the key is missing, and each
element is the optional `message.content` string. -/
inductive LlmOutcome where
  | fault (msg : String)
  | ok (choices : Option (List (Option String)))
deriving DecidableEq

/-- The environment: every external collaborator the pipeline calls.
`fetchUrl` is the overall result of fetch_with_retry for a URL (`none` after
all attempts fail), `parse` is BeautifulSoup, `procFault` says whether the
asyncio task for an article surfaces a raised exception to asyncio.gather,
`apiKey` is OPENROUTER_API_KEY, `llm` the chat-completion transport,
`emailOk` the SMTP delivery outcome of send_email_summary, and `maxPer` the
MAX_ARTICLES_PER_SOURCE configuration value. -/
structure Env where
  maxPer : Nat
  fetchUrl : String → Option String
  parse : String → Page
  procFault : Article → Option String
  apiKey : Option String
  defaultModel : String
  llm : LlmRequest → LlmOutcome
  emailOk : List Article → Bool

/-- Mirrors the relative-to-absolute conversion at the top of the loop body of
extract_article_links. -/
def resolveHref (base href : String) : String :=
  if startsWithS href "/" then
    if endsWithS base "/" then base ++ dropS href 1 else base ++ href
  else href

/-- Mirrors the filter condition of extract_article_links with Python's
operator precedence: `and` binds tighter than `or`, so the `startswith`
guard applies only to the `/article` disjunct. -/
def articleCond (href : String) : Bool :=
  (startsWithS href "http" && containsSub href "/article")
    || containsSub href "/news/" || containsSub href "/story/"

/-- Embedding of extract_article_links: the soup is represented by the list of
anchor href values in document order. -/
def extract_article_links (anchors : List String) (base_url : String) : List String :=
  anchors.foldl
    (fun links href0 =>
      let href := resolveHref base_url href0
      if articleCond href && !(memS href links) then links ++ [href] else links)
    []

/-- Embedding of extract_title: the first h1's stripped text when an h1
element exists (bs4 tags are truthy even when empty), else the stripped
content attribute of the og:title meta element when one exists, else None. -/
def extract_title (p : Page) : Option String :=
  match p.firstH1 with
  | some t => some (trimS t)
  | none =>
    match p.ogTitle with
    | some c => some (trimS (c.getD ""))
    | none => none

/-- One iteration of the inner per-link loop of fetch_articles: fetch the
candidate page; if the fetch produced truthy text and a truthy title is
extracted, build the article dict, otherwise produce nothing. -/
def processLink (env : Env) (source_name link : String) : Option Article :=
  match env.fetchUrl link with
  | some ah =>
    if ah = "" then none
    else
      match extract_title (env.parse ah) with
      | some t =>
        if t = "" then none
        else some { url := link, title := some t, html := some ah, source := some source_name }
      | none => none
  | none => none

/-- Embedding of fetch_articles. The source_name computation sits outside the
per-source try block, so its IndexError (a URL without `//`) propagates as an
exception; everything inside the try contributes articles or is logged and
skipped. -/
def fetch_articles (env : Env) (maxPer : Nat) : List String → Except String (List Article)
  | [] => .ok []
  | u :: rest =>
    match hostOf u with
    | none => .error "list index out of range"
    | some dom =>
      let source_name := replaceS dom "www." ""
      let here :=
        match env.fetchUrl u with
        | some h =>
          if h = "" then []
          else
            let links := extract_article_links (env.parse h).anchors u
            (links.take maxPer).filterMap (processLink env source_name)
        | none => []
      (fetch_articles env maxPer rest).map (fun l => here ++ l)

/-- Mirrors the source-name update loop of batch_process_sources: the first
source whose url contains the article's source string donates its name. -/
def updateName (sources : List Source) (a : Article) : Article :=
  match sources.find? (fun s => containsSub s.url (a.source.getD "")) with
  | some s => { a with source := some s.name }
  | none => a

/-- Embedding of batch_process_sources. -/
def batch_process_sources (env : Env) (sources : List Source) (maxPer : Nat) :
    Except String (List Article) :=
  (fetch_articles env maxPer (sources.map (·.url))).map (fun arts => arts.map (updateName sources))

/-- Mirrors the whitespace cleanup of extract_article_content: join the
stripped non-empty paragraph texts with single spaces, then collapse all
whitespace runs (Python str.split with no argument). -/
def cleanParagraphs (ps : List String) : String :=
  let joined := joinSep " " ((ps.map trimS).filter (fun s => !(s = "" : Bool)))
  joinSep " " (((splitPred Char.isWhitespace joined.data []).map String.mk).filter
    (fun s => !(s = "" : Bool)))

/-- The parse-and-measure tail of extract_article_content, applied to the html
text actually used (the item's own, or the freshly fetched one). -/
def processHtml (env : Env) (article : Article) (h : String) : Article :=
  let content := cleanParagraphs (env.parse h).paragraphs
  if content = "" || lenS content < 50 then
    { article with error := some "Insufficient content extracted" }
  else
    { article with content := some content }

/-- Embedding of extract_article_content: reuse the item's html when truthy,
otherwise fetch the item's URL fresh; a falsy fetch result records the
fetch-failure error, otherwise the cleaned paragraph text is measured. -/
def extract_article_content (env : Env) (article : Article) : Article :=
  if strTruthy article.html then processHtml env article (article.html.getD "")
  else
    match env.fetchUrl article.url with
    | some h =>
      if h = "" then { article with error := some "Failed to fetch article content" }
      else processHtml env article h
    | none => { article with error := some "Failed to fetch article content" }

/-- The html string extract_article_content actually parses for an item, if
any: the item's own html when truthy, else a truthy fresh fetch result. -/
def effectiveHtml (env : Env) (article : Article) : Option String :=
  if strTruthy article.html then article.html
  else
    match env.fetchUrl article.url with
    | some h => if h = "" then none else some h
    | none => none

/-- Embedding of batch_process_articles: one task per article in input order;
asyncio.gather with return_exceptions=True yields, in order, either the
task's raised exception (skipped by the collection loop) or its article. -/
def batch_process_articles (env : Env) (articles : List Article) : List Article :=
  (articles.map
    (fun a =>
      match env.procFault a with
      | some _ => none
      | none => some (extract_article_content env a))).filterMap id

/-- The prompt f-string of get_llm_summary, whitespace included. -/
def promptText (title source content : String) : String :=
  "\n    Article Title: " ++ title ++ "\n    Source: " ++ source ++
    "\n    \n    Content:\n    " ++ content ++
    "\n    \n    Please provide a concise summary of this article in 3-5 sentences. \n    Extract the most important information, key facts, and main points.\n    "

/-- The request body get_llm_summary posts: title and source fall back to
their defaults when absent, content is truncated to 4000 characters with an
ellipsis marker, and the model is the configured default (the workflow always
calls get_llm_summary without an explicit model). -/
def buildRequest (env : Env) (article : Article) : LlmRequest :=
  let content0 := article.content.getD ""
  let title := article.title.getD "Untitled Article"
  let source := article.source.getD "Unknown Source"
  let content := if lenS content0 > 4000 then takeS content0 4000 ++ "..." else content0
  { model := env.defaultModel
    system := "You are a helpful assistant that summarizes news articles."
    user := promptText title source content }

/-- Embedding of get_llm_summary: a total function — every failure mode maps
to a placeholder string. The response handling mirrors
`result.get("choices", [dict()])[0].get("message", dict()).get("content", "")`:
a missing choices key defaults to a one-element list, an empty choices list
raises IndexError (caught by the surrounding except), and a missing message
or content defaults to the empty string. -/
def get_llm_summary (env : Env) (article : Article) : String :=
  if !(strTruthy env.apiKey) then
    "Summary not available - OpenRouter API key not configured."
  else if !(strTruthy article.content) then
    "No content available for summarization."
  else
    match env.llm (buildRequest env article) with
    | .fault e => "Summary generation failed: " ++ e
    | .ok choicesOpt =>
      let lst := match choicesOpt with | none => [none] | some l => l
      match lst with
      | [] => "Summary generation failed: list index out of range"
      | c :: _ =>
        let s := c.getD ""
        if s = "" then "Summary generation failed - empty response." else s

/-- Embedding of send_email_summary: subject/body formatting and SMTP delivery
are external effects; the boolean delivery outcome for a given summaries list
is the environment's. -/
def send_email_summary (env : Env) (summaries : List Article) : Bool :=
  env.emailOk summaries

/-- The shared workflow state dict (NewsWorkflowState). -/
structure NewsWorkflowState where
  sources : List SourceEntry
  articles : List Article
  summaries : List Article
  email_sent : Bool
  error : String
deriving DecidableEq

/-- The string Python would interpolate for a source entry in the
`Invalid source format` message. -/
def pyrepr : SourceEntry → String
  | .str s => s
  | .dictWithUrl n u => "dict name=" ++ n ++ " url=" ++ u
  | .dictNoUrl t => t
  | .otherVal t => t

/-- The source-normalization loop of fetch_articles_async, processed in order
with both of its early exits: an entry that is neither a string nor a dict
with a url key sets the invalid-format error and returns, and a string entry
without `//` raises IndexError, caught by the enclosing except which formats
the fetching-error message. Both final messages are returned fully formed. -/
def normalizeSources : List SourceEntry → Except String (List Source)
  | [] => .ok []
  | .str s :: rest =>
    match hostOf s with
    | none => .error "Error fetching articles: list index out of range"
    | some dom => (normalizeSources rest).map (fun l => ⟨stripWwwOnce dom, s⟩ :: l)
  | .dictWithUrl n u :: rest => (normalizeSources rest).map (fun l => ⟨n, u⟩ :: l)
  | e :: _ => .error ("Invalid source format: " ++ pyrepr e)

/-- Embedding of the fetch_articles_async node. -/
def fetch_articles_async (env : Env) (st : NewsWorkflowState) : NewsWorkflowState :=
  if st.sources.isEmpty then { st with error := "No sources provided." }
  else
    match normalizeSources st.sources with
    | .error msg => { st with error := msg }
    | .ok srcs =>
      match batch_process_sources env srcs env.maxPer with
      | .error e => { st with error := "Error fetching articles: " ++ e }
      | .ok arts =>
        if arts.isEmpty then
          { st with articles := arts, error := "No articles found. Check source configurations." }
        else { st with articles := arts }

/-- Embedding of the extract_content_async node. -/
def extract_content_async (env : Env) (st : NewsWorkflowState) : NewsWorkflowState :=
  if st.articles.isEmpty then
    if st.error = "" then { st with error := "No articles to process" } else st
  else { st with articles := batch_process_articles env st.articles }

/-- Embedding of the summarize_articles_async node: every error-free article
is mutated in place with its summary and appended, in order, to summaries. -/
def summarize_articles_async (env : Env) (st : NewsWorkflowState) : NewsWorkflowState :=
  if st.articles.isEmpty then st
  else
    let upd := fun (a : Article) =>
      if strTruthy a.error then a else { a with summary := some (get_llm_summary env a) }
    let arts := st.articles.map upd
    { st with articles := arts, summaries := arts.filter (fun a => !(strTruthy a.error)) }

/-- Embedding of the send_notifications node; the second component records
the argument of each send_email_summary call the node performs. -/
def send_notifications (env : Env) (st : NewsWorkflowState) :
    NewsWorkflowState × List (List Article) :=
  if st.summaries.isEmpty then (st, [])
  else ({ st with email_sent := send_email_summary env st.summaries }, [st.summaries])

/-- Embedding of the should_send_email decision function. -/
def should_send_email (st : NewsWorkflowState) : String :=
  if st.summaries.isEmpty then "no_summaries" else "has_summaries"

/-- The initial state constructed by main_async for a given sources list. -/
def mainInitialState (sources : List SourceEntry) : NewsWorkflowState :=
  { sources := sources, articles := [], summaries := [], email_sent := false, error := "" }

/-- A completed run: the final state and the arguments of every
send_email_summary call made during the run. -/
structure RunResult where
  state : NewsWorkflowState
  notifierCalls : List (List Article)
deriving DecidableEq

/-- Embedding of one workflow.ainvoke run of the compiled graph built by
build_async_news_workflow: fetch, extract and summarize in sequence along the
unconditional edges, then the conditional edge routes to send_notifications
exactly when should_send_email answers has_summaries, else to END. -/
def runWorkflow (env : Env) (sources : List SourceEntry) : RunResult :=
  let s1 := fetch_articles_async env (mainInitialState sources)
  let s2 := extract_content_async env s1
  let s3 := summarize_articles_async env s2
  if should_send_email s3 = "has_summaries" then
    ⟨(send_notifications env s3).1, (send_notifications env s3).2⟩
  else ⟨s3, []⟩

/-- Spec-side predicate (claim C7's wording): a title is discoverable when the
first h1 heading has non-empty stripped text, or — when no h1 element exists
— an og:title meta element carries non-empty stripped content. -/
def discoverableTitle (p : Page) : Bool :=
  match p.firstH1 with
  | some t => !(trimS t = "" : Bool)
  | none =>
    match p.ogTitle with
    | some c => !(trimS (c.getD "") = "" : Bool)
    | none => false

/-- Spec-side predicate (claim C2's wording): a valid source entry is a string
or a dict with a url key. -/
def validEntry : SourceEntry → Bool
  | .str _ => true
  | .dictWithUrl _ _ => true
  | _ => false

/-- A source entry the normalization loop passes without an early exit: a dict
with a url key, or a string from which a host can be parsed. -/
def wellFormedEntry : SourceEntry → Bool
  | .str s => (hostOf s).isSome
  | .dictWithUrl _ _ => true
  | _ => false

/-- A minimal concrete environment: every fetch fails, pages are empty, no
API key, the LLM transport faults, mail delivery fails. -/
def env0 : Env :=
  { maxPer := 2, fetchUrl := fun _ => none, parse := fun _ => ⟨[], none, none, []⟩
    procFault := fun _ => none, apiKey := none, defaultModel := "m"
    llm := fun _ => .fault "boom", emailOk := fun _ => false }

/-- A 50-character text body. -/
def s50 : String := "aaaaaaaaaaaaaaaaaaaaaaaaaaaaaaaaaaaaaaaaaaaaaaaaaa"

/-- A 49-character text body. -/
def s49 : String := "aaaaaaaaaaaaaaaaaaaaaaaaaaaaaaaaaaaaaaaaaaaaaaaaa"

/-- Concrete end-to-end environment: one source page with one article link,
whose page has a title and a 50-character paragraph; the LLM answers, mail
delivery succeeds. -/
def envE2E : Env :=
  { maxPer := 2
    fetchUrl := fun u =>
      if u = "https://site.com" then some "INDEX"
      else if u = "https://site.com/article/a" then some "PAGEA" else none
    parse := fun h =>
      if h = "INDEX" then ⟨["/article/a"], none, none, []⟩
      else if h = "PAGEA" then ⟨[], some "Title A", none, [s50]⟩
      else ⟨[], none, none, []⟩
    procFault := fun _ => none
    apiKey := some "k"
    defaultModel := "m"
    llm := fun _ => .ok (some [some "A fine summary"])
    emailOk := fun _ => true }

/-- The source list of the end-to-end environment. -/
def srcsE2E : List SourceEntry := [.str "https://site.com"]

/-- Environment for the content-length witnesses: html "H" parses to one
50-character paragraph, html "K" to one 49-character paragraph. -/
def envLen : Env :=
  { env0 with parse := fun h => if h = "H" then ⟨[], none, none, [s50]⟩
      else if h = "K" then ⟨[], none, none, [s49]⟩ else ⟨[], none, none, []⟩ }

/-- An item carrying the 50-character html. -/
def artH : Article := { url := "u", html := some "H" }

/-- An item carrying the 49-character html. -/
def artK : Article := { url := "v", html := some "K" }

/-- Environment for the batch-fault witness: the task for the article with
url "bad" raises; extraction pages are empty. -/
def envFault : Env := { env0 with procFault := fun a => if a.url = "bad" then some "cancelled" else none }

/-- A state holding the no-articles soft error with an empty item list. -/
def stNoArts : NewsWorkflowState :=
  { sources := [.str "https://site.com"], articles := [], summaries := [], email_sent := false
    error := "No articles found. Check source configurations." }

/-- Environment for the summarizer witness: an API key is configured and the
LLM transport faults. -/
def envKey : Env := { env0 with apiKey := some "k" }

/-- An error-free article with content, for the summarizer witness. -/
def artC : Article := { url := "w", title := some "T", source := some "S", content := some s50 }

theorem append_ne_empty (s t : String) (h : s ≠ "") : s ++ t ≠ "" := by
  intro he
  apply h
  have hd : s.data ++ t.data = [] := by
    have h2 := congrArg String.data he
    simpa [String.data_append] using h2
  exact String.ext (List.append_eq_nil.mp hd).1

/-- C4: for every run started with an empty sources list, the workflow
terminates at END with empty summaries, email_sent still false, a non-empty
error, and no notifier call. -/
theorem zero_sources_terminates (env : Env) :
    (runWorkflow env []).state.summaries = []
    ∧ (runWorkflow env []).state.email_sent = false
    ∧ (runWorkflow env []).state.error ≠ ""
    ∧ (runWorkflow env []).notifierCalls = [] := by
  have h : runWorkflow env [] =
      ⟨{ sources := [], articles := [], summaries := [], email_sent := false,
         error := "No sources provided." }, []⟩ := rfl
  rw [h]
  exact ⟨rfl, rfl, by decide, rfl⟩

/-- C4 witness: the zero-source conclusion at the concrete environment. -/
theorem zero_sources_terminates_witness :
    (runWorkflow env0 []).state.summaries = []
    ∧ (runWorkflow env0 []).state.email_sent = false
    ∧ (runWorkflow env0 []).state.error ≠ ""
    ∧ (runWorkflow env0 []).notifierCalls = [] :=
  zero_sources_terminates env0

/-- C1: in every run, the Notify stage is reached if and only if summaries is
non-empty after the Summarize stage: with empty summaries there is no
notifier call, and with non-empty summaries send_email_summary is called
exactly once, receiving the whole summaries sequence. -/
theorem notify_iff_summaries (env : Env) (sources : List SourceEntry) :
    ((runWorkflow env sources).state.summaries = [] → (runWorkflow env sources).notifierCalls = [])
    ∧ ((runWorkflow env sources).state.summaries ≠ [] →
        (runWorkflow env sources).notifierCalls = [(runWorkflow env sources).state.summaries]) := by
  have h : ∀ s3 : NewsWorkflowState,
      (((if should_send_email s3 = "has_summaries" then
            (⟨(send_notifications env s3).1, (send_notifications env s3).2⟩ : RunResult)
          else ⟨s3, []⟩).state.summaries = []) →
        ((if should_send_email s3 = "has_summaries" then
            (⟨(send_notifications env s3).1, (send_notifications env s3).2⟩ : RunResult)
          else ⟨s3, []⟩).notifierCalls = []))
      ∧ (((if should_send_email s3 = "has_summaries" then
            (⟨(send_notifications env s3).1, (send_notifications env s3).2⟩ : RunResult)
          else ⟨s3, []⟩).state.summaries ≠ []) →
        ((if should_send_email s3 = "has_summaries" then
            (⟨(send_notifications env s3).1, (send_notifications env s3).2⟩ : RunResult)
          else ⟨s3, []⟩).notifierCalls =
          [(if should_send_email s3 = "has_summaries" then
              (⟨(send_notifications env s3).1, (send_notifications env s3).2⟩ : RunResult)
            else ⟨s3, []⟩).state.summaries])) := by
    intro s3
    cases hl : s3.summaries with
    | nil => simp [should_send_email, hl]
    | cons a t => simp [should_send_email, hl, send_notifications]
  exact h (summarize_articles_async env
    (extract_content_async env (fetch_articles_async env (mainInitialState sources))))

/-- C1 witness: a concrete end-to-end run whose summaries are non-empty and
whose notifier receives exactly that sequence, once. -/
theorem notify_iff_summaries_witness :
    (runWorkflow envE2E srcsE2E).state.summaries ≠ []
    ∧ (runWorkflow envE2E srcsE2E).notifierCalls
        = [(runWorkflow envE2E srcsE2E).state.summaries] :=
  ⟨by decide, (notify_iff_summaries envE2E srcsE2E).2 (by decide)⟩

/-- C3: once error is a non-empty string at a stage boundary, the later
stages leave it exactly as it is (they never reset it or replace it with a
success value); in particular with the no-articles soft error and an empty
item list, ExtractContent and Summarize are no-ops on the whole state. -/
theorem error_soft_preserved (env : Env) (st : NewsWorkflowState) :
    (st.error ≠ "" →
      (extract_content_async env st).error = st.error
      ∧ (summarize_articles_async env st).error = st.error
      ∧ (send_notifications env st).1.error = st.error)
    ∧ (st.error = "No articles found. Check source configurations." → st.articles = [] →
      extract_content_async env st = st
      ∧ summarize_articles_async env (extract_content_async env st) = extract_content_async env st) := by
  constructor
  · intro h
    refine ⟨?_, ?_, ?_⟩
    · unfold extract_content_async
      by_cases hA : st.articles.isEmpty
      · rw [if_pos hA, if_neg h]
      · rw [if_neg hA]
    · unfold summarize_articles_async
      by_cases hA : st.articles.isEmpty
      · rw [if_pos hA]
      · rw [if_neg hA]
    · unfold send_notifications
      by_cases hS : st.summaries.isEmpty
      · rw [if_pos hS]
      · rw [if_neg hS]
  · intro he ha
    have hne : st.error ≠ "" := by rw [he]; decide
    have h1 : extract_content_async env st = st := by
      unfold extract_content_async
      rw [if_pos (by simp [ha]), if_neg hne]
    refine ⟨h1, ?_⟩
    rw [h1]
    unfold summarize_articles_async
    rw [if_pos (by simp [ha])]

/-- C3 witness: the no-op conclusion at a concrete soft-errored state. -/
theorem error_soft_preserved_witness :
    (extract_content_async env0 stNoArts).error = stNoArts.error
    ∧ extract_content_async env0 stNoArts = stNoArts :=
  ⟨((error_soft_preserved env0 stNoArts).1 (by decide)).1,
    ((error_soft_preserved env0 stNoArts).2 (by decide) (by decide)).1⟩

theorem normalize_invalid (pre : List SourceEntry) (bad : SourceEntry) (rest : List SourceEntry)
    (hpre : ∀ e ∈ pre, wellFormedEntry e = true) (hbad : validEntry bad = false) :
    normalizeSources (pre ++ bad :: rest)
      = .error ("Invalid source format: " ++ pyrepr bad) := by
  induction pre with
  | nil =>
    cases bad with
    | str s => simp [validEntry] at hbad
    | dictWithUrl n u => simp [validEntry] at hbad
    | dictNoUrl t => rfl
    | otherVal t => rfl
  | cons e pre ih =>
    have he : wellFormedEntry e = true := hpre e (by simp)
    have hpre2 : ∀ x ∈ pre, wellFormedEntry x = true := fun x hx => hpre x (by simp [hx])
    cases e with
    | str s =>
      have hs : (hostOf s).isSome := by simpa [wellFormedEntry] using he
      obtain ⟨dom, hdom⟩ := Option.isSome_iff_exists.mp hs
      simp [normalizeSources, hdom, ih hpre2, Except.map]
    | dictWithUrl n u => simp [normalizeSources, ih hpre2, Except.map]
    | dictNoUrl t => simp [wellFormedEntry] at he
    | otherVal t => simp [wellFormedEntry] at he

/-- C2 (amended): a run whose sources hold an entry that is neither a string
nor a dict with a url key — every earlier entry being well formed — aborts in
the fetch stage with the invalid-format error, and the remaining stages leave
the state untouched with no notifier call. -/
theorem invalid_source_aborts_run (env : Env) (pre : List SourceEntry) (bad : SourceEntry)
    (rest : List SourceEntry) (hpre : ∀ e ∈ pre, wellFormedEntry e = true)
    (hbad : validEntry bad = false) :
    runWorkflow env (pre ++ bad :: rest) =
      ⟨{ sources := pre ++ bad :: rest, articles := [], summaries := [], email_sent := false,
         error := "Invalid source format: " ++ pyrepr bad }, []⟩
    ∧ extract_content_async env (fetch_articles_async env (mainInitialState (pre ++ bad :: rest)))
        = fetch_articles_async env (mainInitialState (pre ++ bad :: rest))
    ∧ summarize_articles_async env (fetch_articles_async env (mainInitialState (pre ++ bad :: rest)))
        = fetch_articles_async env (mainInitialState (pre ++ bad :: rest)) := by
  have hmsg : ("Invalid source format: " ++ pyrepr bad) ≠ "" :=
    append_ne_empty _ _ (by decide)
  have hne : (pre ++ bad :: rest).isEmpty = false := by cases pre <;> rfl
  have hfetch : fetch_articles_async env (mainInitialState (pre ++ bad :: rest))
      = { sources := pre ++ bad :: rest, articles := [], summaries := [], email_sent := false,
          error := "Invalid source format: " ++ pyrepr bad } := by
    simp only [fetch_articles_async, mainInitialState]
    rw [normalize_invalid pre bad rest hpre hbad]
    simp [hne]
  have hextract : extract_content_async env (fetch_articles_async env
      (mainInitialState (pre ++ bad :: rest)))
      = fetch_articles_async env (mainInitialState (pre ++ bad :: rest)) := by
    rw [hfetch]
    unfold extract_content_async
    rw [if_pos (by simp), if_neg (by simpa using hmsg)]
  have hsumm : summarize_articles_async env (fetch_articles_async env
      (mainInitialState (pre ++ bad :: rest)))
      = fetch_articles_async env (mainInitialState (pre ++ bad :: rest)) := by
    rw [hfetch]
    unfold summarize_articles_async
    rw [if_pos (by simp)]
  refine ⟨?_, hextract, hsumm⟩
  simp only [runWorkflow]
  rw [hextract, hsumm, hfetch]
  rw [if_neg (by simp [should_send_email])]

/-- C2 counterexample: with sources `["nohost", <non-string 5>]` the list
contains an invalid entry, yet the error the fetch stage records is the
generic fetching-error message raised by the earlier string entry whose URL
has no scheme separator, not an invalid-source message. -/
theorem invalid_source_message_counterexample :
    validEntry (SourceEntry.otherVal "5") = false
    ∧ SourceEntry.otherVal "5" ∈ [SourceEntry.str "nohost", SourceEntry.otherVal "5"]
    ∧ (runWorkflow env0 [SourceEntry.str "nohost", SourceEntry.otherVal "5"]).state.error
        = "Error fetching articles: list index out of range"
    ∧ ∀ e ∈ [SourceEntry.str "nohost", SourceEntry.otherVal "5"],
        (runWorkflow env0 [SourceEntry.str "nohost", SourceEntry.otherVal "5"]).state.error
          ≠ "Invalid source format: " ++ pyrepr e := by
  decide

/-- C2 witness: the amended conclusion at a concrete run. -/
theorem invalid_source_aborts_run_witness :
    (runWorkflow env0 [SourceEntry.str "https://ok.com", SourceEntry.dictNoUrl "dictrepr"]).state.error
      = "Invalid source format: dictrepr"
    ∧ (runWorkflow env0
        [SourceEntry.str "https://ok.com", SourceEntry.dictNoUrl "dictrepr"]).notifierCalls = [] := by
  have h1 : runWorkflow env0 [SourceEntry.str "https://ok.com", SourceEntry.dictNoUrl "dictrepr"]
      = ⟨{ sources := [SourceEntry.str "https://ok.com", SourceEntry.dictNoUrl "dictrepr"],
           articles := [], summaries := [], email_sent := false,
           error := "Invalid source format: dictrepr" }, []⟩ :=
    (invalid_source_aborts_run env0 [SourceEntry.str "https://ok.com"]
      (SourceEntry.dictNoUrl "dictrepr") [] (by decide) (by decide)).1
  exact ⟨by rw [h1], by rw [h1]⟩

/-- C5: evaluation at the failing input — an anchor with the relative href
`foo/news/bar` passes the filter of extract_article_links untouched even
though it is not an absolute http URL, because Python binds the condition as
`(startswith and '/article' in href) or '/news/' in href or '/story/' in
href`; the code's own comments intend absolute article URLs only. -/
theorem relative_link_kept :
    extract_article_links ["foo/news/bar"] "https://example.com" = ["foo/news/bar"]
    ∧ startsWithS "foo/news/bar" "http" = false := by
  decide

theorem extract_eq_processHtml (env : Env) (a : Article) (h : String)
    (hh : effectiveHtml env a = some h) :
    extract_article_content env a = processHtml env a h := by
  unfold effectiveHtml at hh
  unfold extract_article_content
  by_cases ht : strTruthy a.html = true
  · rw [if_pos ht] at hh ⊢
    rw [hh]
    rfl
  · rw [if_neg ht] at hh ⊢
    cases hf : env.fetchUrl a.url with
    | none => rw [hf] at hh; exact absurd hh (by simp)
    | some x =>
      simp only [hf] at hh ⊢
      by_cases hx : x = ""
      · rw [if_pos hx] at hh; exact absurd hh (by simp)
      · rw [if_neg hx] at hh
        rw [if_neg hx, Option.some.inj hh]

theorem extract_eq_fetchFail (env : Env) (a : Article)
    (hh : effectiveHtml env a = none) :
    extract_article_content env a
      = { a with error := some "Failed to fetch article content" } := by
  unfold effectiveHtml at hh
  unfold extract_article_content
  by_cases ht : strTruthy a.html = true
  · rw [if_pos ht] at hh
    rw [hh] at ht
    exact absurd ht (by simp [strTruthy])
  · rw [if_neg ht] at hh ⊢
    cases hf : env.fetchUrl a.url with
    | none => simp only [hf]
    | some x =>
      simp only [hf] at hh ⊢
      by_cases hx : x = ""
      · rw [if_pos hx]
      · rw [if_neg hx] at hh; exact absurd hh (by simp)

/-- C6: an item whose cleaned concatenated paragraph text is exactly 50
characters long is accepted with that text as content and no error; a
cleaned text of at most 49 characters (the empty text included) records the
insufficient-content error and leaves content unset. -/
theorem content_length_threshold (env : Env) (a : Article) (h : String)
    (hh : effectiveHtml env a = some h) (he : a.error = none) (hc : a.content = none) :
    (lenS (cleanParagraphs (env.parse h).paragraphs) = 50 →
      (extract_article_content env a
          = { a with content := some (cleanParagraphs (env.parse h).paragraphs) })
        ∧ (extract_article_content env a).error = none)
    ∧ (lenS (cleanParagraphs (env.parse h).paragraphs) ≤ 49 →
      (extract_article_content env a
          = { a with error := some "Insufficient content extracted" })
        ∧ (extract_article_content env a).content = none) := by
  rw [extract_eq_processHtml env a h hh]
  simp only [processHtml]
  constructor
  · intro h50
    have h1 : ¬ cleanParagraphs (env.parse h).paragraphs = "" := by
      intro h0
      rw [h0] at h50
      simp [lenS] at h50
    have h2 : ¬ lenS (cleanParagraphs (env.parse h).paragraphs) < 50 := by omega
    have heq : (if cleanParagraphs (env.parse h).paragraphs = ""
          || lenS (cleanParagraphs (env.parse h).paragraphs) < 50 then
        { a with error := some "Insufficient content extracted" }
      else { a with content := some (cleanParagraphs (env.parse h).paragraphs) })
        = { a with content := some (cleanParagraphs (env.parse h).paragraphs) } := by
      split
      · rename_i hcond
        exact absurd hcond (by simp [h1, h2])
      · rfl
    exact ⟨heq, by rw [heq]; exact he⟩
  · intro h49
    have h2 : lenS (cleanParagraphs (env.parse h).paragraphs) < 50 := by omega
    split
    · exact ⟨rfl, hc⟩
    · rename_i hcond
      exact absurd (by simp [h2] : _) hcond

/-- C6 witness: the threshold conclusions at 50- and 49-character pages. -/
theorem content_length_threshold_witness :
    extract_article_content envLen artH
      = { artH with content := some (cleanParagraphs (envLen.parse "H").paragraphs) }
    ∧ extract_article_content envLen artK
      = { artK with error := some "Insufficient content extracted" } :=
  ⟨((content_length_threshold envLen artH "H" (by decide) rfl rfl).1 (by decide)).1,
    ((content_length_threshold envLen artK "K" (by decide) rfl rfl).2 (by decide)).1⟩

theorem processLink_url (env : Env) (n l : String) (a : Article)
    (h : processLink env n l = some a) : a.url = l := by
  unfold processLink at h
  cases hf : env.fetchUrl l with
  | none => rw [hf] at h; exact absurd h (by simp)
  | some ah =>
    simp only [hf] at h
    by_cases hah : ah = ""
    · rw [if_pos hah] at h; exact absurd h (by simp)
    · rw [if_neg hah] at h
      cases het : extract_title (env.parse ah) with
      | none => rw [het] at h; exact absurd h (by simp)
      | some t =>
        simp only [het] at h
        by_cases ht : t = ""
        · rw [if_pos ht] at h; exact absurd h (by simp)
        · rw [if_neg ht] at h
          rw [← Option.some.inj h]

/-- C7: a candidate article page that was fetched with truthy text yields a
kept item exactly when a title is discoverable on it (non-empty stripped
first h1 text when an h1 element exists, else non-empty stripped og:title
content); with no discoverable title the link produces no item at all — in
particular no item with that URL appears in the fetch stage's output list,
and no error is recorded anywhere for it. -/
theorem title_gate (env : Env) (name link ah : String)
    (hf : env.fetchUrl link = some ah) (hne : ah ≠ "") :
    ((processLink env name link).isSome = discoverableTitle (env.parse ah))
    ∧ (discoverableTitle (env.parse ah) = false → processLink env name link = none)
    ∧ (discoverableTitle (env.parse ah) = false →
      ∀ (ls : List String) (a : Article),
        a ∈ ls.filterMap (processLink env name) → a.url ≠ link) := by
  have hmain : (processLink env name link).isSome = discoverableTitle (env.parse ah) := by
    unfold processLink discoverableTitle extract_title
    simp only [hf]
    rw [if_neg hne]
    cases hh1 : (env.parse ah).firstH1 with
    | some t =>
      by_cases ht : trimS t = ""
      · simp [ht]
      · simp [ht]
    | none =>
      cases hog : (env.parse ah).ogTitle with
      | some c =>
        by_cases hc : trimS (c.getD "") = ""
        · simp [hc]
        · simp [hc]
      | none => simp
  have hnone : discoverableTitle (env.parse ah) = false → processLink env name link = none := by
    intro h0
    cases hp : processLink env name link with
    | none => rfl
    | some a => rw [hp] at hmain; rw [h0] at hmain; simp at hmain
  refine ⟨hmain, hnone, ?_⟩
  intro h0 ls a ha hurl
  obtain ⟨l2, hl2, hsome⟩ := List.mem_filterMap.mp ha
  have : a.url = l2 := processLink_url env name l2 a hsome
  rw [hurl] at this
  rw [← this] at hsome
  rw [hnone h0] at hsome
  exact absurd hsome (by simp)

/-- C7 witness: the kept-iff-discoverable conclusion at the concrete
end-to-end page. -/
theorem title_gate_witness :
    (processLink envE2E "site.com" "https://site.com/article/a").isSome
      = discoverableTitle (envE2E.parse "PAGEA") :=
  (title_gate envE2E "site.com" "https://site.com/article/a" "PAGEA" (by decide) (by decide)).1

/-- C8: get_llm_summary is total (it is a plain function into String) and
maps each failure mode to its placeholder — missing API key, missing or
empty content, a transport fault, a missing choices key, and an empty first
choice; and in the Summarize stage an error-free article always joins
summaries carrying its summary field, whatever string the call produced. -/
theorem summary_total_placeholders (env : Env) (a : Article) :
    (strTruthy env.apiKey = false →
      get_llm_summary env a = "Summary not available - OpenRouter API key not configured.")
    ∧ (strTruthy env.apiKey = true → strTruthy a.content = false →
      get_llm_summary env a = "No content available for summarization.")
    ∧ (∀ m, strTruthy env.apiKey = true → strTruthy a.content = true →
      env.llm (buildRequest env a) = .fault m →
      get_llm_summary env a = "Summary generation failed: " ++ m)
    ∧ (strTruthy env.apiKey = true → strTruthy a.content = true →
      env.llm (buildRequest env a) = .ok none →
      get_llm_summary env a = "Summary generation failed - empty response.")
    ∧ (∀ c l, strTruthy env.apiKey = true → strTruthy a.content = true →
      env.llm (buildRequest env a) = .ok (some (c :: l)) → c.getD "" = "" →
      get_llm_summary env a = "Summary generation failed - empty response.")
    ∧ (∀ st : NewsWorkflowState, a ∈ st.articles → strTruthy a.error = false →
      { a with summary := some (get_llm_summary env a) }
        ∈ (summarize_articles_async env st).summaries) := by
  refine ⟨?_, ?_, ?_, ?_, ?_, ?_⟩
  · intro hk
    unfold get_llm_summary
    rw [if_pos (by simp [hk])]
  · intro hk hc
    unfold get_llm_summary
    rw [if_neg (by simp [hk]), if_pos (by simp [hc])]
  · intro m hk hc hllm
    unfold get_llm_summary
    rw [if_neg (by simp [hk]), if_neg (by simp [hc]), hllm]
  · intro hk hc hllm
    unfold get_llm_summary
    rw [if_neg (by simp [hk]), if_neg (by simp [hc]), hllm]
    rfl
  · intro c l hk hc hllm hempty
    unfold get_llm_summary
    rw [if_neg (by simp [hk]), if_neg (by simp [hc]), hllm]
    simp only []
    rw [hempty]
    rw [if_pos rfl]
  · intro st ha herr
    unfold summarize_articles_async
    have hne : st.articles.isEmpty = false := by
      cases harts : st.articles with
      | nil => rw [harts] at ha; exact absurd ha (by simp)
      | cons x t => rfl
    rw [if_neg (by simp [hne])]
    simp only
    apply List.mem_filter.mpr
    constructor
    · apply List.mem_map.mpr
      exact ⟨a, ha, by rw [if_neg (by simp [herr])]⟩
    · simp [herr]

/-- C8 witness: the transport-fault placeholder and the inclusion in
summaries at a concrete article and environment. -/
theorem summary_total_placeholders_witness :
    get_llm_summary envKey artC = "Summary generation failed: boom"
    ∧ { artC with summary := some (get_llm_summary envKey artC) }
      ∈ (summarize_articles_async envKey
          { sources := [], articles := [artC], summaries := [], email_sent := false,
            error := "" }).summaries :=
  ⟨(summary_total_placeholders envKey artC).2.2.1 "boom" (by decide) (by decide) rfl,
    (summary_total_placeholders envKey artC).2.2.2.2.2
      { sources := [], articles := [artC], summaries := [], email_sent := false, error := "" }
      (by simp) (by decide)⟩

theorem batch_eq (env : Env) (l : List Article) :
    batch_process_articles env l
      = (l.filter (fun a => (env.procFault a).isNone)).map (extract_article_content env) := by
  induction l with
  | nil => rfl
  | cons a t ih =>
    unfold batch_process_articles at ih ⊢
    cases hfa : env.procFault a with
    | none => simp [hfa, List.filter_cons, ih]
    | some m => simp [hfa, List.filter_cons, ih]

/-- C9: a raised fault for one item of a batch neither aborts
batch_process_articles nor affects the sibling items: the output is exactly
the extraction results of the non-faulting items, in input order, with the
faulting item absent. -/
theorem batch_fault_isolation (env : Env) (pre : List Article) (bad : Article)
    (post : List Article) (m : String) (hbad : env.procFault bad = some m)
    (hpre : ∀ a ∈ pre, env.procFault a = none) (hpost : ∀ a ∈ post, env.procFault a = none) :
    batch_process_articles env (pre ++ bad :: post)
      = pre.map (extract_article_content env) ++ post.map (extract_article_content env) := by
  rw [batch_eq]
  have h1 : pre.filter (fun a => (env.procFault a).isNone) = pre :=
    List.filter_eq_self.mpr (fun a ha => by simp [hpre a ha])
  have h2 : post.filter (fun a => (env.procFault a).isNone) = post :=
    List.filter_eq_self.mpr (fun a ha => by simp [hpost a ha])
  rw [List.filter_append, List.filter_cons, h1, h2]
  rw [if_neg (by simp [hbad])]
  rw [List.map_append]

/-- C9 witness: the batch conclusion at a concrete three-item batch whose
middle item faults. -/
theorem batch_fault_isolation_witness :
    batch_process_articles envFault [{ url := "g1" }, { url := "bad" }, { url := "g2" }]
      = [extract_article_content envFault { url := "g1" },
        extract_article_content envFault { url := "g2" }] :=
  batch_fault_isolation envFault [{ url := "g1" }] { url := "bad" } [{ url := "g2" }]
    "cancelled" (by decide) (by decide) (by decide)

/-- C10: on an input item with no pre-existing error and no pre-existing
content, extraction returns a copy with url, title, html and source
unchanged, and exactly one of the two outcome fields set: content with no
error, or an error with no content. -/
theorem extract_outcome_frame (env : Env) (a : Article) (he : a.error = none)
    (hc : a.content = none) :
    (extract_article_content env a).url = a.url
    ∧ (extract_article_content env a).title = a.title
    ∧ (extract_article_content env a).html = a.html
    ∧ (extract_article_content env a).source = a.source
    ∧ (((extract_article_content env a).content.isSome = true
          ∧ (extract_article_content env a).error = none)
      ∨ ((extract_article_content env a).content = none
          ∧ (extract_article_content env a).error.isSome = true)) := by
  cases heff : effectiveHtml env a with
  | none =>
    rw [extract_eq_fetchFail env a heff]
    exact ⟨rfl, rfl, rfl, rfl, Or.inr ⟨hc, rfl⟩⟩
  | some h =>
    rw [extract_eq_processHtml env a h heff]
    simp only [processHtml]
    split
    · exact ⟨rfl, rfl, rfl, rfl, Or.inr ⟨hc, rfl⟩⟩
    · exact ⟨rfl, rfl, rfl, rfl, Or.inl ⟨rfl, he⟩⟩

/-- C10 witness: the frame conclusion at a concrete item. -/
theorem extract_outcome_frame_witness :
    (extract_article_content envLen artH).url = artH.url
    ∧ (((extract_article_content envLen artH).content.isSome = true
          ∧ (extract_article_content envLen artH).error = none)
      ∨ ((extract_article_content envLen artH).content = none
          ∧ (extract_article_content envLen artH).error.isSome = true)) :=
  ⟨(extract_outcome_frame envLen artH rfl rfl).1,
    (extract_outcome_frame envLen artH rfl rfl).2.2.2.2⟩

end News
